import Mathlib

/-!
Shallow embedding of the `liuliuliu-git/docs` repository: a VitePress
documentation site consisting of Markdown content pages and the declarative
site configuration `src/.vitepress/config.mts` (with two earlier revisions of
that configuration preserved in the repository as `src/unnamed/part_008` and
`src/unnamed/part_009`).

The staged source files are concatenations of documents delimited by a
separator marker line; most files hold one document, but
`src/unnamed/part_000` holds three, and `src/unnamed/part_010`,
`src/guides/nextjs/route-groups.md` and `src/guides/react/hooks/useReducer.md`
hold two each, so the 27 staged files carry 32 source documents
(29 Markdown documents and 3 revisions of the configuration).  Every
separator-delimited document is modelled as a source document in its own
right.

The embedding translates the configuration object literals and the observable
surface of the Markdown documents (frontmatter head lines, custom-container
delimiter lines, mermaid code fences, file-path routes) into Lean data, and
proves the specification claims about them.
-/

namespace Docs

/-! ## Substring search and the `manualChunks` build hook

`src/.vitepress/config.mts`, lines 37-41:

```
manualChunks(id) {
  if (id.includes('node_modules')) {
    return 'vendor';
  }
}
```

JavaScript `String.prototype.includes` is substring containment; a JS function
that falls off the end returns `undefined`, modelled as `none`.
-/

/-- Substring test on character lists: `pat` occurs contiguously in `s`.
Implemented as: some tail of `s` has `pat` as a prefix. -/
def hasSub (s pat : List Char) : Bool :=
  s.tails.any fun t => pat.isPrefixOf t

/-- Embeds JavaScript `s.includes(pat)`: `pat` is a substring of `s`. -/
def strIncludes (s pat : String) : Bool :=
  hasSub s.data pat.data

/-- Embeds the `manualChunks` function of `src/.vitepress/config.mts`
(lines 37-41): returns the chunk name `'vendor'` when the module id contains
`'node_modules'`, and `undefined` (here `none`) otherwise. -/
def manualChunks (id : String) : Option String :=
  if strIncludes id "node_modules" then some "vendor" else none

/-- The function-valued members of the options object of
`src/.vitepress/config.mts`, by dotted option path: the single `manualChunks`
member of `vite.build.rollupOptions.output` (lines 37-41).  Every other
option value in the file is a data literal, so the configuration is
declarative except for this one executable member. -/
def functionOptions : List (String × (String → Option String)) :=
  [("vite.build.rollupOptions.output.manualChunks", manualChunks)]

/-! ## Site configuration data model

The configuration is a nested object literal passed to `defineConfig`.  Only
the parts the claims mention are embedded: title, description, base, the
mermaid options object, the build flags, the nav list and the sidebar object.
-/

/-- A nav entry `{ text, link }` from `themeConfig.nav`. -/
structure NavItem where
  text : String
  link : String
deriving DecidableEq

/-- An entry in a top-level sidebar group: either a leaf `{ text, link }`
item, or a nested collapsible group `{ text, collapsed, items }` whose items
are all leaves.  This mirrors the exact nesting depth of the sidebar object
in `src/.vitepress/config.mts`. -/
inductive SNode where
  | leaf (text link : String)
  | subgroup (text : String) (collapsed : Bool) (items : List (String × String))
deriving DecidableEq

/-- A top-level sidebar group `{ text, items }`. -/
structure SGroup where
  text : String
  items : List SNode
deriving DecidableEq

/-- All leaf `(text, link)` pairs reachable inside a sidebar entry. -/
def SNode.leaves : SNode → List (String × String)
  | .leaf t l => [(t, l)]
  | .subgroup _ _ items => items

/-- All leaf `(text, link)` pairs reachable inside a list of sidebar groups. -/
def leavesL (gs : List SGroup) : List (String × String) :=
  (gs.map fun g => (g.items.map SNode.leaves).flatten).flatten

/-- The site configuration options object (the literal passed to
`defineConfig`).  `mermaid` is the plugin-options object as key-value pairs
(`none` when the option is absent); `buildMinify`/`buildSourcemap` are the
`vite.build` flags (`none` when no `vite.build` section exists). -/
structure SiteConfig where
  title : String
  description : String
  base : String
  mermaid : Option (List (String × String))
  buildMinify : Option String
  buildSourcemap : Option Bool
  nav : List NavItem
  sidebar : List (String × List SGroup)

/-- What the config module exports: the options object, and whether the
`withMermaid` plugin wrapper is applied around `defineConfig` in the export
expression. -/
structure SiteExport where
  cfg : SiteConfig
  withMermaidApplied : Bool

/-- The section keys of a configuration's sidebar object. -/
def sidebarKeys (c : SiteConfig) : List String :=
  c.sidebar.map (·.1)

/-- All leaf links appearing anywhere in a configuration's sidebar. -/
def sidebarLeafLinks (c : SiteConfig) : List String :=
  (c.sidebar.map fun kv => (leavesL kv.2).map (·.2)).flatten

/-- The leaf `(text, link)` items of the sidebar section stored under key `k`
(empty when no such section exists). -/
def sectionLeaves (c : SiteConfig) (k : String) : List (String × String) :=
  match c.sidebar.find? (fun kv => kv.1 == k) with
  | some kv => leavesL kv.2
  | none => []

/-! ## The current configuration, `src/.vitepress/config.mts`

Embedded field by field from the options object passed to `defineConfig`
(lines 4-223).  The export expression of this revision applies `defineConfig`
directly; no `withMermaid` wrapper appears (the file imports only
`defineConfig` from `vitepress`).
-/

/-- The sidebar object of `src/.vitepress/config.mts` (lines 77-206). -/
def sidebarNew : List (String × List SGroup) :=
  [ ("/guides/",
      [ ⟨"学习指南", [.leaf "指南首页" "/guides/"]⟩,
        ⟨"前端通用知识",
          [ .leaf "前端渲染模式：CSR、SSR、SSG" "/guides/general/rendering-modes",
            .leaf "网络与通信：HTTP、缓存、HTTPS" "/guides/general/network-communication",
            .leaf "认证机制：Cookie、Token、Session" "/guides/general/authentication" ]⟩,
        ⟨"React",
          [ .leaf "React 指南" "/guides/react/",
            .leaf "Hooks 概览" "/guides/react/hooks/",
            .leaf "use() API" "/guides/react/use-api",
            .subgroup "核心 Hooks" true
              [ ("useState", "/guides/react/hooks/useState"),
                ("useReducer", "/guides/react/hooks/useReducer"),
                ("useEffect", "/guides/react/hooks/useEffect"),
                ("useRef", "/guides/react/hooks/useRef"),
                ("useCallback/useMemo", "/guides/react/hooks/useCallback-useMemo"),
                ("自定义 Hooks", "/guides/react/hooks/custom-hooks") ] ]⟩,
        ⟨"Next.js",
          [ .leaf "Next.js 指南" "/guides/nextjs/",
            .leaf "App Router 文件路由系统" "/guides/nextjs/app-router",
            .leaf "App Router 路由导航" "/guides/nextjs/navigation",
            .leaf "路由组" "/guides/nextjs/route-groups",
            .leaf "服务端路由处理程序" "/guides/nextjs/router-handle",
            .leaf "Proxy（代理）" "/guides/nextjs/proxy",
            .subgroup "进阶主题" true
              [ ("数据获取", "/guides/nextjs/data-fetching"),
                ("缓存机制", "/guides/nextjs/caching"),
                ("Middleware", "/guides/nextjs/middleware"),
                ("错误处理", "/guides/nextjs/error-handling") ] ]⟩,
        ⟨"Node.js", [.leaf "Node.js 指南" "/guides/nodejs/"]⟩,
        ⟨"Go", [.leaf "Go 指南" "/guides/go/"]⟩ ]),
    ("/api/",
      [ ⟨"API 参考", [.leaf "API 首页" "/api/"]⟩,
        ⟨"React", [.leaf "React API" "/api/react/"]⟩,
        ⟨"Node.js", [.leaf "Node.js API" "/api/nodejs/"]⟩ ]),
    ("/best-practices/",
      [ ⟨"最佳实践", [.leaf "最佳实践首页" "/best-practices/"]⟩,
        ⟨"React", [.leaf "React 最佳实践" "/best-practices/react/"]⟩,
        ⟨"Node.js", [.leaf "Node.js 最佳实践" "/best-practices/nodejs/"]⟩ ]),
    ("/examples/",
      [ ⟨"示例",
          [ .leaf "示例首页" "/examples/",
            .leaf "Markdown 示例" "/examples/markdown-examples",
            .leaf "API 示例" "/examples/api-examples" ]⟩ ]),
    ("/meta/",
      [ ⟨"元文档",
          [ .leaf "元文档首页" "/meta/",
            .leaf "AI 编写指南" "/meta/ai-writing-guide" ]⟩ ]) ]

/-- The nav list shared verbatim by `src/.vitepress/config.mts` (lines 68-74)
and `src/unnamed/part_009` (lines 19-25). -/
def navList : List NavItem :=
  [ ⟨"首页", "/"⟩,
    ⟨"学习指南", "/guides/"⟩,
    ⟨"API 参考", "/api/"⟩,
    ⟨"最佳实践", "/best-practices/"⟩,
    ⟨"示例", "/examples/"⟩ ]

/-- The options object of `src/.vitepress/config.mts`: title (line 5),
description (line 6), base (line 7), mermaid options (lines 10-13: a `theme`
entry set to `'default'`), build flags (lines 44-47: `minify: 'esbuild'`,
`sourcemap: false`), nav and sidebar. -/
def config : SiteConfig :=
  { title := "技术文档"
    description := "涵盖 React、Next.js、Node.js、Go 等技术栈的学习指南和参考文档"
    base := "/"
    mermaid := some [("theme", "default")]
    buildMinify := some "esbuild"
    buildSourcemap := some false
    nav := navList
    sidebar := sidebarNew }

/-- The export of `src/.vitepress/config.mts`: `defineConfig({...})` with no
`withMermaid` wrapper (the file imports only `defineConfig`). -/
def currentExport : SiteExport :=
  { cfg := config, withMermaidApplied := false }

/-! ## The earlier configuration, `src/unnamed/part_009`

An earlier revision of the same config module: it exports
`withMermaid(defineConfig({...}))` (lines 1-6), its mermaid options object is
empty (only comments, lines 12-15), and it has no `vite` section at all, so
no build flags.  Its sidebar (lines 27-120) is flat: every group item is a
leaf.
-/

/-- The sidebar object of `src/unnamed/part_009` (lines 27-120). -/
def sidebarOld : List (String × List SGroup) :=
  [ ("/guides/",
      [ ⟨"学习指南", [.leaf "指南首页" "/guides/"]⟩,
        ⟨"React",
          [ .leaf "React 指南" "/guides/react/",
            .leaf "use() API" "/guides/react/use-api" ]⟩,
        ⟨"Next.js",
          [ .leaf "Next.js 指南" "/guides/nextjs/",
            .leaf "App Router 文件路由系统" "/guides/nextjs/app-router",
            .leaf "App Router 路由导航" "/guides/nextjs/navigation" ]⟩,
        ⟨"Node.js", [.leaf "Node.js 指南" "/guides/nodejs/"]⟩,
        ⟨"Go", [.leaf "Go 指南" "/guides/go/"]⟩ ]),
    ("/api/",
      [ ⟨"API 参考", [.leaf "API 首页" "/api/"]⟩,
        ⟨"React", [.leaf "React API" "/api/react/"]⟩,
        ⟨"Node.js", [.leaf "Node.js API" "/api/nodejs/"]⟩ ]),
    ("/best-practices/",
      [ ⟨"最佳实践", [.leaf "最佳实践首页" "/best-practices/"]⟩,
        ⟨"React", [.leaf "React 最佳实践" "/best-practices/react/"]⟩,
        ⟨"Node.js", [.leaf "Node.js 最佳实践" "/best-practices/nodejs/"]⟩ ]),
    ("/examples/",
      [ ⟨"示例",
          [ .leaf "示例首页" "/examples/",
            .leaf "Markdown 示例" "/examples/markdown-examples",
            .leaf "API 示例" "/examples/api-examples" ]⟩ ]),
    ("/meta/",
      [ ⟨"元文档",
          [ .leaf "元文档首页" "/meta/",
            .leaf "AI 编写指南" "/meta/ai-writing-guide" ]⟩ ]) ]

/-- The options object of `src/unnamed/part_009`: same title, description and
base as the current revision; empty mermaid options object; no `vite.build`
flags; same nav; flat sidebar. -/
def oldConfig : SiteConfig :=
  { title := "技术文档"
    description := "涵盖 React、Next.js、Node.js、Go 等技术栈的学习指南和参考文档"
    base := "/"
    mermaid := some []
    buildMinify := none
    buildSourcemap := none
    nav := navList
    sidebar := sidebarOld }

/-- The export of `src/unnamed/part_009`:
`withMermaid(defineConfig({...}))`, so the mermaid plugin wrapper is
applied. -/
def oldExport : SiteExport :=
  { cfg := oldConfig, withMermaidApplied := true }

/-! ## Markdown content documents

The repository sources carry 29 Markdown documents: 13 staged files under
named paths hold one document each, `guides/nextjs/route-groups.md` and
`guides/react/hooks/useReducer.md` hold two each, and the unnamed staged
files (`src/unnamed/part_000` ...) hold the rest, with `part_000` holding
three documents and `part_010` two.  For each document the embedding
records:

* `path` — the staged file holding it (two documents staged in the same
  file share this field; the doc comments identify the chunk);
* `route` — the URL route of the page, i.e. the original file path relative
  to the site root with the `.md` extension dropped and a leading `/`.  For
  the unnamed documents the original path is inferred from content: each one
  has a level-1 heading and frontmatter matching exactly one sidebar entry
  (for example `src/unnamed/part_001` is the page titled
  `认证机制：Cookie、Token、Session`, the sidebar item text for
  `/guides/general/authentication`); `src/unnamed/part_003` is an earlier
  revision of `guides/nextjs/index.md`;
* `headLines` — the first lines of the document, verbatim, through the
  closing frontmatter delimiter (the first three lines when the document has
  no frontmatter);
* `containers` — the custom-container delimiter lines (lines starting with
  `:::`) that lie outside fenced code blocks, in file order; a line
  `::: kind title` opens a container, a bare `:::` closes one.  The container
  demo lines 37-61 of `examples/markdown-examples.md` sit inside a ```` ```md
  ```` code fence and are literal text, not container syntax, so they are not
  listed; the rendered copies at lines 65-83 are;
* `mermaidBlocks` — the number of ```` ```mermaid ```` fenced blocks outside
  other code fences (the demo copy at line 92 of
  `examples/markdown-examples.md` sits inside a ```` ````md ```` fence and is
  not counted; the rendered copy at lines 104-111 is).
-/

/-- A custom-container delimiter line: `copen kind` for a line
`::: kind ...`, `cclose` for a bare `:::` line. -/
inductive ContToken where
  | copen (kind : String)
  | cclose
deriving DecidableEq

/-- The embedded observable surface of one Markdown document. -/
structure MdDoc where
  path : String
  route : String
  headLines : List String
  containers : List ContToken
  mermaidBlocks : Nat
deriving DecidableEq

/-- The standard frontmatter head shared by every Markdown document in this
repository other than `examples/markdown-examples.md`. -/
def fmHead : List String := ["---", "outline: deep", "---"]

/-- A matched open/close container pair. -/
def cpair (kind : String) : List ContToken := [.copen kind, .cclose]

/-- `src/examples/markdown-examples.md`: no frontmatter (the file starts with
its level-1 heading); five rendered containers (lines 65-83); one rendered
mermaid block (lines 104-111). -/
def markdownExamples : MdDoc :=
  { path := "examples/markdown-examples.md"
    route := "/examples/markdown-examples"
    headLines :=
      [ "# Markdown Extension Examples",
        "",
        "This page demonstrates some of the built-in markdown extensions provided by VitePress." ]
    containers :=
      cpair "info" ++ cpair "tip" ++ cpair "warning" ++ cpair "danger" ++
        cpair "details"
    mermaidBlocks := 1 }

/-- `src/guides/general/network-communication.md`. -/
def networkCommunication : MdDoc :=
  { path := "guides/general/network-communication.md"
    route := "/guides/general/network-communication"
    headLines := fmHead
    containers := cpair "tip 提示" ++ cpair "warning 注意"
    mermaidBlocks := 4 }

/-- `src/guides/general/rendering-modes.md`. -/
def renderingModes : MdDoc :=
  { path := "guides/general/rendering-modes.md"
    route := "/guides/general/rendering-modes"
    headLines := fmHead
    containers :=
      cpair "tip 核心理解" ++ cpair "warning 重要修正" ++
        cpair "tip 理解 Hydration" ++ cpair "tip 关键理解"
    mermaidBlocks := 8 }

/-- `src/guides/nextjs/app-router.md`. -/
def appRouter : MdDoc :=
  { path := "guides/nextjs/app-router.md"
    route := "/guides/nextjs/app-router"
    headLines := fmHead
    containers :=
      cpair "tip 迁移建议" ++ cpair "warning 重要提示" ++ cpair "tip 根布局" ++
        cpair "tip 最佳实践" ++ cpair "tip 性能提示"
    mermaidBlocks := 0 }

/-- `src/guides/nextjs/caching.md`. -/
def caching : MdDoc :=
  { path := "guides/nextjs/caching.md"
    route := "/guides/nextjs/caching"
    headLines := fmHead
    containers := []
    mermaidBlocks := 2 }

/-- `src/guides/nextjs/error-handling.md`. -/
def errorHandling : MdDoc :=
  { path := "guides/nextjs/error-handling.md"
    route := "/guides/nextjs/error-handling"
    headLines := fmHead
    containers := []
    mermaidBlocks := 2 }

/-- `src/guides/nextjs/index.md`. -/
def nextjsIndex : MdDoc :=
  { path := "guides/nextjs/index.md"
    route := "/guides/nextjs/index"
    headLines := fmHead
    containers := []
    mermaidBlocks := 0 }

/-- `src/guides/nextjs/route-groups.md`, first document (lines 1-704): the
route-groups page.  Its mermaid blocks are at lines 219 and 290; the third
```` ```mermaid ```` fence of the staged file (line 721) belongs to the
second document, the Middleware page. -/
def routeGroups : MdDoc :=
  { path := "guides/nextjs/route-groups.md"
    route := "/guides/nextjs/route-groups"
    headLines := fmHead
    containers :=
      cpair "warning 重要提示" ++ cpair "tip 提示" ++ cpair "tip 提示"
    mermaidBlocks := 2 }

/-- `src/guides/nextjs/route-groups.md`, second document (after the separator
at line 705): the page titled `Next.js Middleware` (sidebar item `Middleware`
at `/guides/nextjs/middleware`), i.e. `guides/nextjs/middleware.md`.  One
mermaid block (staged line 721), no container lines. -/
def middlewareDoc : MdDoc :=
  { path := "guides/nextjs/route-groups.md"
    route := "/guides/nextjs/middleware"
    headLines := fmHead
    containers := []
    mermaidBlocks := 1 }

/-- `src/guides/nextjs/router-handle.md`. -/
def routerHandle : MdDoc :=
  { path := "guides/nextjs/router-handle.md"
    route := "/guides/nextjs/router-handle"
    headLines := fmHead
    containers :=
      cpair "warning 重要提示" ++ cpair "tip 方法命名规则" ++
        cpair "warning Next.js 16 重要变化" ++ cpair "tip 相关文档" ++
        cpair "tip 相关文档" ++ cpair "tip 相关文档"
    mermaidBlocks := 1 }

/-- `src/guides/react/index.md`. -/
def reactIndex : MdDoc :=
  { path := "guides/react/index.md"
    route := "/guides/react/index"
    headLines := fmHead
    containers := []
    mermaidBlocks := 0 }

/-- `src/guides/react/use-api.md`. -/
def useApi : MdDoc :=
  { path := "guides/react/use-api.md"
    route := "/guides/react/use-api"
    headLines := fmHead
    containers :=
      cpair "tip 核心理解" ++ cpair "tip 提示" ++ cpair "warning 注意" ++
        cpair "warning 注意"
    mermaidBlocks := 0 }

/-- `src/guides/react/hooks/index.md`. -/
def hooksIndex : MdDoc :=
  { path := "guides/react/hooks/index.md"
    route := "/guides/react/hooks/index"
    headLines := fmHead
    containers := []
    mermaidBlocks := 1 }

/-- `src/guides/react/hooks/useCallback-useMemo.md`. -/
def useCallbackUseMemo : MdDoc :=
  { path := "guides/react/hooks/useCallback-useMemo.md"
    route := "/guides/react/hooks/useCallback-useMemo"
    headLines := fmHead
    containers := []
    mermaidBlocks := 1 }

/-- `src/guides/react/hooks/useReducer.md`, first document (lines 1-233):
the useReducer page (it links to `useState.md`, confirming the useState page
exists as its own file). -/
def useReducerDoc : MdDoc :=
  { path := "guides/react/hooks/useReducer.md"
    route := "/guides/react/hooks/useReducer"
    headLines := fmHead
    containers := []
    mermaidBlocks := 0 }

/-- `src/guides/react/hooks/useReducer.md`, second document (after the
separator at line 234): the page titled `useState 深入指南` (sidebar item
`useState` at `/guides/react/hooks/useState`), i.e.
`guides/react/hooks/useState.md`. -/
def useStateDoc : MdDoc :=
  { path := "guides/react/hooks/useReducer.md"
    route := "/guides/react/hooks/useState"
    headLines := fmHead
    containers := []
    mermaidBlocks := 0 }

/-- `src/guides/react/hooks/useRef.md`. -/
def useRefDoc : MdDoc :=
  { path := "guides/react/hooks/useRef.md"
    route := "/guides/react/hooks/useRef"
    headLines := fmHead
    containers := []
    mermaidBlocks := 1 }

/-- `src/unnamed/part_000`, first document (lines 1-22): the page titled
`API 参考`, i.e. `api/index.md`. -/
def apiIndex : MdDoc :=
  { path := "unnamed/part_000"
    route := "/api/index"
    headLines := fmHead
    containers := []
    mermaidBlocks := 0 }

/-- `src/unnamed/part_000`, second document (after the separator at line 23):
a revision of the page titled `学习指南`, i.e. `guides/index.md`. -/
def guidesIndexRev1 : MdDoc :=
  { path := "unnamed/part_000"
    route := "/guides/index"
    headLines := fmHead
    containers := []
    mermaidBlocks := 0 }

/-- `src/unnamed/part_000`, third document (after the separator at line 52):
a later revision of the `学习指南` page, i.e. `guides/index.md` (it adds the
`前端通用知识` section). -/
def guidesIndexRev2 : MdDoc :=
  { path := "unnamed/part_000"
    route := "/guides/index"
    headLines := fmHead
    containers := []
    mermaidBlocks := 0 }

/-- `src/unnamed/part_001`: the page titled `认证机制：Cookie、Token、Session`
(the sidebar item text for `/guides/general/authentication`), i.e.
`guides/general/authentication.md`. -/
def authentication : MdDoc :=
  { path := "unnamed/part_001"
    route := "/guides/general/authentication"
    headLines := fmHead
    containers := cpair "tip Next.js 相关文档"
    mermaidBlocks := 6 }

/-- `src/unnamed/part_002`: the page titled `Next.js Proxy（代理）` (sidebar
item `Proxy（代理）` at `/guides/nextjs/proxy`), i.e.
`guides/nextjs/proxy.md`. -/
def proxyDoc : MdDoc :=
  { path := "unnamed/part_002"
    route := "/guides/nextjs/proxy"
    headLines := fmHead
    containers := cpair "warning 重要提示" ++ cpair "tip 提示"
    mermaidBlocks := 1 }

/-- `src/unnamed/part_003`: an earlier revision of the page titled
`Next.js 学习指南`, i.e. `guides/nextjs/index.md`. -/
def nextjsIndexOld : MdDoc :=
  { path := "unnamed/part_003"
    route := "/guides/nextjs/index"
    headLines := fmHead
    containers := []
    mermaidBlocks := 0 }

/-- `src/unnamed/part_004`: the page titled `Next.js 数据获取` (sidebar item
`数据获取` at `/guides/nextjs/data-fetching`), i.e.
`guides/nextjs/data-fetching.md`. -/
def dataFetching : MdDoc :=
  { path := "unnamed/part_004"
    route := "/guides/nextjs/data-fetching"
    headLines := fmHead
    containers := []
    mermaidBlocks := 1 }

/-- `src/unnamed/part_005`: the page titled `Next.js App Router 路由导航`
(sidebar item `App Router 路由导航` at `/guides/nextjs/navigation`), i.e.
`guides/nextjs/navigation.md`. -/
def navigationDoc : MdDoc :=
  { path := "unnamed/part_005"
    route := "/guides/nextjs/navigation"
    headLines := fmHead
    containers :=
      cpair "tip 重要提示" ++ cpair "tip 使用场景" ++ cpair "warning 安全提示" ++
        cpair "warning 重要提示" ++ cpair "tip 使用场景" ++ cpair "tip 迁移提示" ++
        cpair "warning 注意事项" ++ cpair "tip SEO 提示" ++
        cpair "warning 重要提示" ++ cpair "warning 强烈不推荐"
    mermaidBlocks := 0 }

/-- `src/unnamed/part_006`: the page titled `useEffect 深度解析` (sidebar
item `useEffect` at `/guides/react/hooks/useEffect`), i.e.
`guides/react/hooks/useEffect.md`. -/
def useEffectDoc : MdDoc :=
  { path := "unnamed/part_006"
    route := "/guides/react/hooks/useEffect"
    headLines := fmHead
    containers := []
    mermaidBlocks := 1 }

/-- `src/unnamed/part_007`: the page titled `自定义 Hooks` (sidebar item
`自定义 Hooks` at `/guides/react/hooks/custom-hooks`), i.e.
`guides/react/hooks/custom-hooks.md`. -/
def customHooks : MdDoc :=
  { path := "unnamed/part_007"
    route := "/guides/react/hooks/custom-hooks"
    headLines := fmHead
    containers := []
    mermaidBlocks := 0 }

/-- `src/unnamed/part_010`, first document (lines 1-22): the page titled
`最佳实践`, i.e. `best-practices/index.md`. -/
def bestPracticesIndex : MdDoc :=
  { path := "unnamed/part_010"
    route := "/best-practices/index"
    headLines := fmHead
    containers := []
    mermaidBlocks := 0 }

/-- `src/unnamed/part_010`, second document (after the separator at line 23):
the `layout: home` front page of the site, i.e. `index.md`.  The document is
its 27-line frontmatter block and nothing else; `headLines` is the whole
document verbatim. -/
def homePage : MdDoc :=
  { path := "unnamed/part_010"
    route := "/index"
    headLines :=
      [ "---",
        "# https://vitepress.dev/reference/default-theme-home-page",
        "layout: home",
        "",
        "hero:",
        "  name: \"技术文档\"",
        "  text: \"学习与参考\"",
        "  tagline: 涵盖 React、Next.js、Node.js、Go 等技术栈的学习指南和参考文档",
        "  actions:",
        "    - theme: brand",
        "      text: 开始学习",
        "      link: /guides/",
        "    - theme: alt",
        "      text: 查看示例",
        "      link: /examples/",
        "",
        "features:",
        "  - title: 学习指南",
        "    details: 系统化的学习教程，从基础到进阶，涵盖 React、Next.js、Node.js、Go 等技术栈",
        "    link: /guides/",
        "  - title: API 参考",
        "    details: 详细的 API 文档和参考，帮助快速查找和使用各种 API",
        "    link: /api/",
        "  - title: 最佳实践",
        "    details: 经过实践验证的开发建议和最佳实践，提升代码质量和开发效率",
        "    link: /best-practices/",
        "---" ]
    containers := []
    mermaidBlocks := 0 }

/-- All 29 Markdown documents of the repository sources (every
separator-delimited Markdown document of the 26 staged non-configuration
files). -/
def mdDocs : List MdDoc :=
  [ markdownExamples, networkCommunication, renderingModes, appRouter,
    caching, errorHandling, nextjsIndex, routeGroups, middlewareDoc,
    routerHandle, reactIndex, useApi, hooksIndex, useCallbackUseMemo,
    useReducerDoc, useStateDoc, useRefDoc, apiIndex, guidesIndexRev1,
    guidesIndexRev2, authentication, proxyDoc, nextjsIndexOld, dataFetching,
    navigationDoc, useEffectDoc, customHooks, bestPracticesIndex, homePage ]

/-- The URL routes of the repository's Markdown documents: original file
path with the `.md` extension dropped and a leading `/`. -/
def mdRoutes : List String :=
  mdDocs.map (·.route)

/-! ## Frontmatter and container checkers -/

/-- A document contains a frontmatter block when its first line is the `---`
opening delimiter (frontmatter is only recognised at the very top of a
Markdown file; a `---` line elsewhere is a thematic break). -/
def hasFrontmatter (d : MdDoc) : Bool :=
  d.headLines.head? == some "---"

/-- Whether a string begins with the character `/`. -/
def startsSlash (s : String) : Bool :=
  s.data.head? == some '/'

/-- Whether a string ends with the character `/`. -/
def endsSlash (s : String) : Bool :=
  s.data.getLast? == some '/'

/-- A line with its leading indentation stripped. -/
def stripIndent (l : String) : List Char :=
  l.data.dropWhile (fun c => c == ' ')

/-- A YAML mapping line: a non-empty key before a `:` (either `key: value` or
a bare `key:` introducing a nested block). -/
def yamlKeyLine (c : List Char) : Bool :=
  !(c.dropWhile (fun ch => ch != ':')).isEmpty && c.head? != some ':'

/-- One line of a YAML block mapping, as frontmatter uses it: blank, a `#`
comment, a `- ` block-sequence entry, or a (possibly indented, possibly
nested) mapping line. -/
def isYamlLine (l : String) : Bool :=
  let c := stripIndent l
  c.isEmpty || c.head? == some '#' || c.take 2 == ['-', ' '] || yamlKeyLine c

/-- The lines strictly between the opening `---` and the closing `---`. -/
def fmBetween (d : MdDoc) : List String :=
  (d.headLines.drop 1).takeWhile (fun l => l != "---")

/-- A closing `---` delimiter occurs on a later line. -/
def fmHasClose (d : MdDoc) : Bool :=
  (d.headLines.drop 1).any (fun l => l == "---")

/-- Container-delimiter nesting depth after consuming the token list, or
`none` if a close appears with no container open. -/
def contDepth : Nat → List ContToken → Option Nat
  | d, [] => some d
  | d, .copen _ :: ts => contDepth (d + 1) ts
  | d, .cclose :: ts =>
    match d with
    | 0 => none
    | n + 1 => contDepth n ts

/-- Every opened container is closed by a matching `:::` line before the end
of the document: scanning the delimiter lines never closes an unopened
container and ends with no container open. -/
def contBalanced (ts : List ContToken) : Bool :=
  contDepth 0 ts == some 0

/-! ## The source-document inventory

All 32 separator-delimited source documents staged in the 27 files under
`src/`: the 29 Markdown documents and the three revisions of the site
configuration.  A Markdown document's fenced code blocks are prose example
text, not function definitions of this repository.  The two earlier
configuration revisions (`unnamed/part_008`, `unnamed/part_009`) are pure
object literals: no member of their options objects is a function.  The
current configuration `/.vitepress/config.mts` has exactly one function
member, `manualChunks` (lines 37-41).
-/

/-- What kind of source file: prose Markdown content, or a site-configuration
module. -/
inductive FileKind where
  | markdown
  | configFile
deriving DecidableEq

/-- One source document: the path of the staged file holding it under
`src/`, its kind, and the names of the executable functions it defines
(empty for pure data/prose). -/
structure SrcFile where
  path : String
  kind : FileKind
  functionDefs : List String
deriving DecidableEq

/-- The 32 source documents of the repository: the 29 Markdown documents
plus the three revisions of the site configuration. -/
def srcFiles : List SrcFile :=
  mdDocs.map (fun d => ⟨d.path, .markdown, []⟩) ++
    [ ⟨".vitepress/config.mts", .configFile, ["manualChunks"]⟩,
      ⟨"unnamed/part_008", .configFile, []⟩,
      ⟨"unnamed/part_009", .configFile, []⟩ ]

/-- The sidebar links that name pages with no Markdown source document
anywhere in the repository sources (the pages are referenced by the
navigation but not yet written). -/
def missingRoutes : List String :=
  [ "/examples/api-examples", "/meta/ai-writing-guide" ]

/-! ## Supporting lemmas -/

/-- `hasSub` is substring occurrence: some decomposition `a ++ pat ++ b`
recovers `s`. -/
theorem hasSub_iff (s pat : List Char) :
    hasSub s pat = true ↔ ∃ a b, a ++ pat ++ b = s := by
  unfold hasSub
  rw [List.any_eq_true]
  constructor
  · rintro ⟨t, ht, hp⟩
    rw [List.mem_tails] at ht
    rw [List.isPrefixOf_iff_prefix] at hp
    obtain ⟨a, ha⟩ := ht
    obtain ⟨b, hb⟩ := hp
    exact ⟨a, b, by rw [List.append_assoc, hb, ha]⟩
  · rintro ⟨a, b, h⟩
    refine ⟨pat ++ b, ?_, ?_⟩
    · rw [List.mem_tails]
      exact ⟨a, (List.append_assoc a pat b).symm.trans h⟩
    · rw [List.isPrefixOf_iff_prefix]
      exact ⟨b, rfl⟩

/-! ## Claims -/

/-- C9: for every module id string, `manualChunks` returns the chunk name
`'vendor'` exactly when the id contains the substring `'node_modules'`, and
returns no chunk name (`undefined`, modelled `none`) otherwise.  Determinism
and totality are inherent: `manualChunks` is a total Lean function. -/
theorem C9_manualChunks_spec (id : String) :
    (manualChunks id = some "vendor" ↔
        ∃ a b, a ++ "node_modules".data ++ b = id.data) ∧
      (manualChunks id = none ↔
        ¬∃ a b, a ++ "node_modules".data ++ b = id.data) := by
  have h := hasSub_iff id.data "node_modules".data
  cases hb : hasSub id.data "node_modules".data with
  | false =>
      rw [hb] at h
      simp only [Bool.false_eq_true, false_iff] at h
      have hm : manualChunks id = none := by
        simp [manualChunks, strIncludes, hb]
      refine ⟨⟨?_, ?_⟩, fun _ => h, fun _ => hm⟩
      · intro hv
        rw [hm] at hv
        cases hv
      · intro hex
        exact absurd hex h
  | true =>
      rw [hb] at h
      simp only [true_iff] at h
      have hm : manualChunks id = some "vendor" := by
        simp [manualChunks, strIncludes, hb]
      refine ⟨⟨fun _ => h, fun _ => hm⟩, ?_, ?_⟩
      · intro hv
        rw [hm] at hv
        cases hv
      · intro hnex
        exact absurd h hnex

/-- C1 counterexample: the claim "no source file defines an executable
function" is false — `src/.vitepress/config.mts` defines the function
`manualChunks` (lines 37-41), and that function is executable and
non-constant: on the concrete module id `project/node_modules/vue/dist/vue.js`
it returns `'vendor'`, on `project/src/main.ts` it returns nothing. -/
theorem C1_counterexample :
    (⟨".vitepress/config.mts", .configFile, ["manualChunks"]⟩ : SrcFile) ∈
        srcFiles ∧
      manualChunks "project/node_modules/vue/dist/vue.js" = some "vendor" ∧
      manualChunks "project/src/main.ts" = none := by
  refine ⟨by decide, by decide, by decide⟩

/-- C1, amended: every source document under `src/` (all 32
separator-delimited documents of the 27 staged files) is either prose
Markdown content or a site-configuration module, and none defines an
executable function except `src/.vitepress/config.mts`, which defines exactly
one: the `manualChunks` chunk-name selector in its build options. -/
theorem C1_no_custom_logic (f : SrcFile) (hf : f ∈ srcFiles) :
    (f.kind = .markdown ∨ f.kind = .configFile) ∧
      (f.functionDefs ≠ [] →
        f = ⟨".vitepress/config.mts", .configFile, ["manualChunks"]⟩) := by
  have h : ∀ g ∈ srcFiles,
      (g.kind = .markdown ∨ g.kind = .configFile) ∧
        (g.functionDefs ≠ [] →
          g = ⟨".vitepress/config.mts", .configFile, ["manualChunks"]⟩) := by
    decide
  exact h f hf

/-- C1 witness: the amended theorem applied to the
`examples/markdown-examples.md` document. -/
theorem C1_no_custom_logic_witness :
    (⟨"examples/markdown-examples.md", .markdown, []⟩ : SrcFile) ∈ srcFiles ∧
      ((FileKind.markdown = .markdown ∨ FileKind.markdown = .configFile) ∧
        (([] : List String) ≠ [] →
          (⟨"examples/markdown-examples.md", .markdown, []⟩ : SrcFile) =
            ⟨".vitepress/config.mts", .configFile, ["manualChunks"]⟩)) :=
  ⟨by decide,
    C1_no_custom_logic ⟨"examples/markdown-examples.md", .markdown, []⟩
      (by decide)⟩

/-- C2 counterexample: the sidebar leaf link `/examples/api-examples` does
not end in `/`, yet no Markdown source document of the repository maps to it
under the extension-dropping path-to-route map (the sources stage no
`examples/api-examples.md`, neither as a named file nor as a
separator-delimited chunk). -/
theorem C2_counterexample :
    "/examples/api-examples" ∈ sidebarLeafLinks config ∧
      endsSlash "/examples/api-examples" = false ∧
      "/examples/api-examples" ∉ mdRoutes := by
  refine ⟨by decide, by decide, by decide⟩

/-- C2, amended: every sidebar leaf link that does not end in `/` is the
route of a Markdown source document, except the two links to pages that are
not written anywhere in the sources: `/examples/api-examples` and
`/meta/ai-writing-guide`.  (The `useState` and `Middleware` pages do exist:
they are the second documents staged in `guides/react/hooks/useReducer.md`
and `guides/nextjs/route-groups.md`.) -/
theorem C2_routes_cover_sidebar (l : String) (h1 : l ∈ sidebarLeafLinks config)
    (h2 : endsSlash l = false) (h3 : l ∉ missingRoutes) : l ∈ mdRoutes := by
  have h : ∀ x ∈ sidebarLeafLinks config,
      endsSlash x = false → x ∉ missingRoutes → x ∈ mdRoutes := by
    decide
  exact h l h1 h2 h3

/-- C2 witness: the amended theorem applied to the sidebar link
`/guides/nextjs/app-router`. -/
theorem C2_routes_cover_sidebar_witness :
    ("/guides/nextjs/app-router" ∈ sidebarLeafLinks config ∧
        endsSlash "/guides/nextjs/app-router" = false ∧
        "/guides/nextjs/app-router" ∉ missingRoutes) ∧
      "/guides/nextjs/app-router" ∈ mdRoutes :=
  ⟨⟨by decide, by decide, by decide⟩,
    C2_routes_cover_sidebar "/guides/nextjs/app-router" (by decide) (by decide)
      (by decide)⟩

/-- C3: every key of the sidebar object begins and ends with `/`, and every
leaf item reachable inside the groups stored under it carries a non-empty
text label and a link beginning with `/`. -/
theorem C3_sidebar_invariant (k : String) (gs : List SGroup)
    (h : (k, gs) ∈ config.sidebar) :
    (startsSlash k = true ∧ endsSlash k = true) ∧
      ∀ p ∈ leavesL gs, p.1 ≠ "" ∧ startsSlash p.2 = true := by
  have hall : ∀ kv ∈ config.sidebar,
      (startsSlash kv.1 = true ∧ endsSlash kv.1 = true) ∧
        ∀ p ∈ leavesL kv.2, p.1 ≠ "" ∧ startsSlash p.2 = true := by
    decide
  exact hall (k, gs) h

/-- C3 witness: the sidebar invariant applied to the `/meta/` section. -/
theorem C3_sidebar_invariant_witness :
    (startsSlash "/meta/" = true ∧ endsSlash "/meta/" = true) ∧
      ∀ p ∈ leavesL
          [⟨"元文档",
            [.leaf "元文档首页" "/meta/",
             .leaf "AI 编写指南" "/meta/ai-writing-guide"]⟩],
        p.1 ≠ "" ∧ startsSlash p.2 = true :=
  C3_sidebar_invariant "/meta/"
    [⟨"元文档",
      [.leaf "元文档首页" "/meta/",
       .leaf "AI 编写指南" "/meta/ai-writing-guide"]⟩]
    (by decide)

/-- C4 counterexample: the repository does not configure the site generator
*solely* via declarative options — the options object of
`src/.vitepress/config.mts` has a function-valued member,
`vite.build.rollupOptions.output.manualChunks`, and that member is an
executable, non-constant function: on `lib/node_modules/dayjs/index.js` it
returns `'vendor'`, on `lib/app/index.js` it returns nothing. -/
theorem C4_counterexample :
    functionOptions.map (·.1) =
        ["vite.build.rollupOptions.output.manualChunks"] ∧
      manualChunks "lib/node_modules/dayjs/index.js" = some "vendor" ∧
      manualChunks "lib/app/index.js" = none := by
  refine ⟨rfl, by decide, by decide⟩

/-- C4, amended: the configuration object defines each listed option kind
with the stated values — title `技术文档`, a non-empty description, base path
`/`, the five sidebar section arrays, and the build flags `minify: 'esbuild'`
and `sourcemap: false` — and all its option values are declarative data
literals except exactly one function-valued build option,
`vite.build.rollupOptions.output.manualChunks`. -/
theorem C4_declarative_options :
    config.title = "技术文档" ∧ config.description ≠ "" ∧ config.base = "/" ∧
      sidebarKeys config =
        ["/guides/", "/api/", "/best-practices/", "/examples/", "/meta/"] ∧
      config.buildMinify = some "esbuild" ∧
      config.buildSourcemap = some false ∧
      functionOptions.map (·.1) =
        ["vite.build.rollupOptions.output.manualChunks"] := by
  refine ⟨rfl, by decide, rfl, by decide, rfl, rfl, rfl⟩

/-- C5: the site configuration `src/.vitepress/config.mts` declares options
for the mermaid diagramming plugin (`theme: 'default'`), the `withMermaid`
plugin wrapper is applied to the configuration in `src/unnamed/part_009`, and
the content page `examples/markdown-examples.md` embeds one rendered
```` ```mermaid ```` diagram-description block. -/
theorem C5_mermaid_diagrams :
    config.mermaid = some [("theme", "default")] ∧
      oldExport.withMermaidApplied = true ∧
      markdownExamples ∈ mdDocs ∧ 1 ≤ markdownExamples.mermaidBlocks := by
  refine ⟨rfl, rfl, by decide, by decide⟩

/-- C6: in every Markdown document that contains a frontmatter block, the
first line is the opening `---` delimiter, a later line is the closing `---`
delimiter, and every line between them is a line of YAML key-value metadata
(a mapping line such as `outline: deep` or `layout: home`, a nested entry of
a key such as `hero:` or `features:`, a block-sequence entry, a comment, or a
blank line — frontmatter is a YAML block mapping, so nested values, comments
and blanks are part of the key-value metadata). -/
theorem C6_frontmatter_top (d : MdDoc) (hd : d ∈ mdDocs)
    (hfm : hasFrontmatter d = true) :
    d.headLines.head? = some "---" ∧ fmHasClose d = true ∧
      (fmBetween d).all isYamlLine = true := by
  have h : ∀ e ∈ mdDocs, hasFrontmatter e = true →
      e.headLines.head? = some "---" ∧ fmHasClose e = true ∧
        (fmBetween e).all isYamlLine = true := by
    decide
  exact h d hd hfm

/-- C6 witness: the frontmatter theorem applied to the `layout: home` front
page, whose frontmatter has nested keys, comments and blank lines. -/
theorem C6_frontmatter_top_witness :
    (homePage ∈ mdDocs ∧ hasFrontmatter homePage = true) ∧
      homePage.headLines.head? = some "---" ∧
      fmHasClose homePage = true ∧
      (fmBetween homePage).all isYamlLine = true :=
  ⟨⟨by decide, by decide⟩, C6_frontmatter_top homePage (by decide) (by decide)⟩

/-- C7: in every Markdown document the custom-container delimiter lines are
balanced — every container opened by a `::: kind` line is closed by a
matching `:::` line before the end of the document. -/
theorem C7_containers_balanced (d : MdDoc) (hd : d ∈ mdDocs) :
    contBalanced d.containers = true := by
  have h : ∀ e ∈ mdDocs, contBalanced e.containers = true := by decide
  exact h d hd

/-- C7 witness: container balance applied to
`examples/markdown-examples.md`. -/
theorem C7_containers_balanced_witness :
    markdownExamples ∈ mdDocs ∧
      contBalanced markdownExamples.containers = true :=
  ⟨by decide, C7_containers_balanced markdownExamples (by decide)⟩

/-- C8: `themeConfig.nav` is the fixed list of five labeled links, and every
nav entry other than `首页` has a link that is a key of the sidebar
object. -/
theorem C8_nav_consistent (e : NavItem) (he : e ∈ config.nav) :
    config.nav =
        [⟨"首页", "/"⟩, ⟨"学习指南", "/guides/"⟩, ⟨"API 参考", "/api/"⟩,
          ⟨"最佳实践", "/best-practices/"⟩, ⟨"示例", "/examples/"⟩] ∧
      (e.text ≠ "首页" → e.link ∈ sidebarKeys config) := by
  have h : ∀ x ∈ config.nav, x.text ≠ "首页" → x.link ∈ sidebarKeys config := by
    decide
  exact ⟨rfl, h e he⟩

/-- C8 witness: nav consistency applied to the `学习指南` entry. -/
theorem C8_nav_consistent_witness :
    ((⟨"学习指南", "/guides/"⟩ : NavItem) ∈ config.nav) ∧
      (config.nav =
          [⟨"首页", "/"⟩, ⟨"学习指南", "/guides/"⟩, ⟨"API 参考", "/api/"⟩,
            ⟨"最佳实践", "/best-practices/"⟩, ⟨"示例", "/examples/"⟩] ∧
        ((NavItem.mk "学习指南" "/guides/").text ≠ "首页" →
          (NavItem.mk "学习指南" "/guides/").link ∈ sidebarKeys config)) :=
  ⟨by decide, C8_nav_consistent ⟨"学习指南", "/guides/"⟩ (by decide)⟩

/-- C10: the current configuration refines the earlier revision
`src/unnamed/part_009`: title, base path `/` and the five nav entries are
identical, every sidebar section key of the old configuration is a key of the
new one, and every leaf `(text, link)` item of an old section appears among
the leaves of the section with the same key in the new configuration. -/
theorem C10_refines_old (k : String) (hk : k ∈ sidebarKeys oldConfig) :
    oldConfig.title = config.title ∧ oldConfig.base = "/" ∧
      config.base = "/" ∧ oldConfig.nav = config.nav ∧
      config.nav.length = 5 ∧ k ∈ sidebarKeys config ∧
      ∀ p ∈ sectionLeaves oldConfig k, p ∈ sectionLeaves config k := by
  have h : ∀ x ∈ sidebarKeys oldConfig,
      x ∈ sidebarKeys config ∧
        ∀ p ∈ sectionLeaves oldConfig x, p ∈ sectionLeaves config x := by
    decide
  exact ⟨rfl, rfl, rfl, rfl, rfl, (h k hk).1, (h k hk).2⟩

/-- C10 witness: the refinement applied to the `/api/` sidebar section. -/
theorem C10_refines_old_witness :
    "/api/" ∈ sidebarKeys oldConfig ∧
      (oldConfig.title = config.title ∧ oldConfig.base = "/" ∧
        config.base = "/" ∧ oldConfig.nav = config.nav ∧
        config.nav.length = 5 ∧ "/api/" ∈ sidebarKeys config ∧
        ∀ p ∈ sectionLeaves oldConfig "/api/",
          p ∈ sectionLeaves config "/api/") :=
  ⟨by decide, C10_refines_old "/api/" (by decide)⟩

end Docs
